import Mathlib

/-!
Shallow embedding of the `multipage-auth-dash-app` repository: the
navigation access guard (`callbacks/layout_callbacks.py`), the image
upload pipeline (`callbacks/app/select_images_callbacks.py` and
`file_io/file_utilities.py`), the archive builder and storage-layout
helpers (`file_io/file_utilities.py`), and user registration
(`auth/authentication.py`).

Conventions of the embedding:
* bytes are `List Nat` (byte values);
* filesystem paths are lists of path components (`List String`);
* the filesystem is the list of directories that exist;
* Python exceptions become `Except String` values carrying `str(e)`;
* the external imaging library (PIL) is a parameter (`ImageLib`),
  since it is an external collaborator of the repository;
* Python's `base64.b64decode` (CPython non-strict mode) and
  `pathlib.PurePath.name` are modelled character-faithfully.
-/

namespace Templates

instance {ε α : Type} [DecidableEq ε] [DecidableEq α] : DecidableEq (Except ε α) := fun a b =>
  match a, b with
  | .error x, .error y =>
      if h : x = y then .isTrue (by rw [h]) else .isFalse (by intro hc; cases hc; exact h rfl)
  | .ok x, .ok y =>
      if h : x = y then .isTrue (by rw [h]) else .isFalse (by intro hc; cases hc; exact h rfl)
  | .error _, .ok _ => .isFalse (by intro hc; cases hc)
  | .ok _, .error _ => .isFalse (by intro hc; cases hc)

/-! ## Navigation guard (`callbacks/layout_callbacks.py`) -/

/-- One entry of the Dash `page_registry`: a page has a `path` and an
optional `location` tag (pages registered without a `location` keyword
yield `None` from `page.get("location")`). -/
structure Page where
  path : String
  location : Option String
deriving Repr, DecidableEq

/-- Python substring containment `pat in s`, on character lists. -/
def isSubChars (pat : List Char) : List Char → Bool
  | [] => pat.isEmpty
  | c :: rest => pat.isPrefixOf (c :: rest) || isSubChars pat rest

/-- Python `pat in s` for strings. -/
def strIn (pat s : String) : Bool := isSubChars pat.data s.data

/-- `PROTECTED_LOCATIONS = {"app"}` from `layout_callbacks.py`. -/
def PROTECTED_LOCATIONS : List String := ["app"]

/-- `AUTH_LOCATIONS = {"auth"}` from `layout_callbacks.py`. -/
def AUTH_LOCATIONS : List String := ["auth"]

/-- `_get_location(pathname)`: the `location` of the first registered
page whose `path` is contained in `pathname`, else `None`. -/
def get_location (registry : List Page) (pathname : String) : Option String :=
  match registry.find? (fun page => strIn page.path pathname) with
  | some page => page.location
  | none => none

/-- Python `page_location in LOCS` where `page_location` may be `None`
(`None in {"app"}` is `False`). -/
def locationIn (loc : Option String) (locs : List String) : Bool :=
  match loc with
  | some l => locs.contains l
  | none => false

/-- Navigation outcome: stay on the page (`no_update`) or redirect. -/
inductive NavAction where
  | stay
  | redirectTo (path : String)
deriving Repr, DecidableEq

/-- Result of the guard: the navigation action together with whether
`logout()` was invoked. -/
structure GuardResult where
  action : NavAction
  logoutCalled : Bool
deriving Repr, DecidableEq

/-- Python truthiness of `logout_clicks : int or None`. -/
def truthyClicks : Option Nat → Bool
  | none => false
  | some n => n != 0

/-- `auth_guard_and_logout(pathname, logout_clicks)` from
`layout_callbacks.py`, with the session's authentication state and the
page registry passed explicitly. -/
def auth_guard_and_logout (registry : List Page) (pathname : String)
    (user_authenticated : Bool) (logout_clicks : Option Nat) : GuardResult :=
  if truthyClicks logout_clicks then
    { action := .redirectTo "/login", logoutCalled := true }
  else
    let page_location := get_location registry pathname
    if user_authenticated && !(locationIn page_location PROTECTED_LOCATIONS) then
      { action := .redirectTo "/select-images", logoutCalled := false }
    else if !user_authenticated && !(locationIn page_location AUTH_LOCATIONS) then
      { action := .redirectTo "/login", logoutCalled := false }
    else
      { action := .stay, logoutCalled := false }

/-- The page registry of this repository (`pages/auth/login.py`,
`pages/auth/registration.py`, `pages/app/select_images.py`,
`pages/app/review_images.py`, `pages/layout.py`). -/
def appRegistry : List Page :=
  [ { path := "/login", location := some "auth" },
    { path := "/registration", location := some "auth" },
    { path := "/select-images", location := some "app" },
    { path := "/review-images", location := some "app" } ]

theorem locationIn_app (loc : Option String) :
    locationIn loc PROTECTED_LOCATIONS = true ↔ loc = some "app" := by
  cases loc with
  | none => simp [locationIn]
  | some l =>
      simp [locationIn, PROTECTED_LOCATIONS, List.contains]

theorem locationIn_auth (loc : Option String) :
    locationIn loc AUTH_LOCATIONS = true ↔ loc = some "auth" := by
  cases loc with
  | none => simp [locationIn]
  | some l =>
      simp [locationIn, AUTH_LOCATIONS, List.contains]

/-- **C1.** The access guard is total and evaluated in order: a truthy
logout click logs out and redirects to `/login` regardless of
authentication; otherwise an authenticated session on a page whose
location tag is not `app` is redirected to `/select-images`; otherwise
an unauthenticated session on a page whose location tag is not `auth`
is redirected to `/login`; otherwise the guard returns stay
(`no_update`) and never calls logout. -/
theorem guard_decision_order (registry : List Page) (pathname : String)
    (auth : Bool) (clicks : Option Nat) :
    (truthyClicks clicks = true →
      auth_guard_and_logout registry pathname auth clicks =
        { action := .redirectTo "/login", logoutCalled := true }) ∧
    (truthyClicks clicks = false → auth = true →
      get_location registry pathname ≠ some "app" →
      auth_guard_and_logout registry pathname auth clicks =
        { action := .redirectTo "/select-images", logoutCalled := false }) ∧
    (truthyClicks clicks = false → auth = false →
      get_location registry pathname ≠ some "auth" →
      auth_guard_and_logout registry pathname auth clicks =
        { action := .redirectTo "/login", logoutCalled := false }) ∧
    (truthyClicks clicks = false →
      ((auth = true ∧ get_location registry pathname = some "app") ∨
       (auth = false ∧ get_location registry pathname = some "auth")) →
      auth_guard_and_logout registry pathname auth clicks =
        { action := .stay, logoutCalled := false }) := by
  refine ⟨?_, ?_, ?_, ?_⟩
  · intro h
    simp [auth_guard_and_logout, h]
  · intro h ha hloc
    have hli : locationIn (get_location registry pathname) PROTECTED_LOCATIONS = false := by
      cases hli : locationIn (get_location registry pathname) PROTECTED_LOCATIONS with
      | false => rfl
      | true => exact absurd ((locationIn_app _).mp hli) hloc
    simp [auth_guard_and_logout, h, ha, hli]
  · intro h ha hloc
    have hli : locationIn (get_location registry pathname) AUTH_LOCATIONS = false := by
      cases hli : locationIn (get_location registry pathname) AUTH_LOCATIONS with
      | false => rfl
      | true => exact absurd ((locationIn_auth _).mp hli) hloc
    simp [auth_guard_and_logout, h, ha, hli]
  · intro h hcase
    rcases hcase with ⟨ha, hloc⟩ | ⟨ha, hloc⟩
    · simp [auth_guard_and_logout, h, ha, hloc, locationIn, PROTECTED_LOCATIONS,
        List.contains]
    · simp [auth_guard_and_logout, h, ha, hloc, locationIn, AUTH_LOCATIONS,
        List.contains]

/-- Witness for C1 on the real page registry: a logout click on
`/select-images` while authenticated redirects to `/login` with logout
called; without a click, an authenticated session on `/login` is sent
to `/select-images`; an unauthenticated session on `/select-images` is
sent to `/login`; an unauthenticated session on `/login` stays. -/
theorem guard_decision_order_witness :
    auth_guard_and_logout appRegistry "/select-images" true (some 1) =
      { action := .redirectTo "/login", logoutCalled := true } ∧
    auth_guard_and_logout appRegistry "/login" true none =
      { action := .redirectTo "/select-images", logoutCalled := false } ∧
    auth_guard_and_logout appRegistry "/select-images" false none =
      { action := .redirectTo "/login", logoutCalled := false } ∧
    auth_guard_and_logout appRegistry "/login" false none =
      { action := .stay, logoutCalled := false } := by
  refine ⟨?_, ?_, ?_, ?_⟩
  · exact (guard_decision_order appRegistry "/select-images" true (some 1)).1 (by decide)
  · exact (guard_decision_order appRegistry "/login" true none).2.1 rfl rfl (by decide)
  · exact (guard_decision_order appRegistry "/select-images" false none).2.2.1 rfl rfl
      (by decide)
  · exact (guard_decision_order appRegistry "/login" false none).2.2.2 rfl
      (Or.inr ⟨rfl, by decide⟩)

/-! ## Base64 decoding (`base64.b64decode`, CPython non-strict mode)

`decode_base64_image` calls `base64.b64decode` on a `str`; CPython
first ASCII-encodes the string, then runs `binascii.a2b_base64` in
non-strict mode: alphabet characters are accumulated into quartets
(emitting output bytes eagerly), other characters are discarded, a pad
`'='` seen with at least two characters in the current quartet counts
towards completing it and decoding stops once the quartet is padded to
four; at end of input a leftover of one character is the "cannot be 1
more than a multiple of 4" error and a leftover of two or three is
"Incorrect padding". -/

/-- Value of a standard base64 alphabet character, else `none`. -/
def b64val (c : Char) : Option Nat :=
  if 'A' ≤ c ∧ c ≤ 'Z' then some (c.toNat - 65)
  else if 'a' ≤ c ∧ c ≤ 'z' then some (c.toNat - 97 + 26)
  else if '0' ≤ c ∧ c ≤ '9' then some (c.toNat - 48 + 52)
  else if c = '+' then some 62
  else if c = '/' then some 63
  else none

/-- The quartet loop of `binascii.a2b_base64` (non-strict):
`nchars` counts accepted data characters, `leftchar` holds the pending
bits, `pads` the pad characters seen in the current quartet, `acc` the
output bytes in reverse. -/
def b64decodeAux : List Char → Nat → Nat → Nat → List Nat → Except String (List Nat)
  | [], nchars, _, _, acc =>
      if nchars % 4 == 1 then
        .error s!"Invalid base64-encoded string: number of data characters ({nchars}) cannot be 1 more than a multiple of 4"
      else if nchars % 4 != 0 then .error "Incorrect padding"
      else .ok acc.reverse
  | c :: rest, nchars, leftchar, pads, acc =>
      if c = '=' then
        if 2 ≤ nchars % 4 then
          if 4 ≤ nchars % 4 + (pads + 1) then .ok acc.reverse
          else b64decodeAux rest nchars leftchar (pads + 1) acc
        else b64decodeAux rest nchars leftchar pads acc
      else
        match b64val c with
        | none => b64decodeAux rest nchars leftchar pads acc
        | some v =>
          match nchars % 4 with
          | 0 => b64decodeAux rest (nchars + 1) v 0 acc
          | 1 => b64decodeAux rest (nchars + 1) (v % 16) 0 ((leftchar * 4 + v / 16) :: acc)
          | 2 => b64decodeAux rest (nchars + 1) (v % 4) 0 ((leftchar * 16 + v / 4) :: acc)
          | _ => b64decodeAux rest (nchars + 1) 0 0 ((leftchar * 64 + v) :: acc)

/-- `base64.b64decode` on a `str` argument. -/
def b64decode (s : String) : Except String (List Nat) :=
  if s.data.all (fun c => c.toNat < 128) then b64decodeAux s.data 0 0 0 []
  else .error "string argument should contain only ASCII characters"

/-- Python `s.split(sep, 1)` on character lists: `none` when `sep` does
not occur, else the parts before and after its first occurrence. -/
def splitFirst (sep : Char) : List Char → Option (List Char × List Char)
  | [] => none
  | c :: rest =>
      if c = sep then some ([], rest)
      else
        match splitFirst sep rest with
        | some (h, t) => some (c :: h, t)
        | none => none

/-- `decode_base64_image(content_str)` from `file_utilities.py`: raise
if there is no comma, split on the first comma, base64-decode the
part after it, raise if the decoded bytes are empty; every failure is
re-raised as `ValueError("Failed to decode base64 image: <detail>")`. -/
def decode_base64_image (content_str : String) : Except String (List Nat) :=
  match splitFirst ',' content_str.data with
  | none =>
      .error "Failed to decode base64 image: Input string does not contain a comma to split header and data."
  | some (_, body) =>
      match b64decode (String.mk body) with
      | .error e => .error s!"Failed to decode base64 image: {e}"
      | .ok decoded_content_bytes =>
          if decoded_content_bytes.isEmpty then
            .error "Failed to decode base64 image: Decoded image content is empty."
          else .ok decoded_content_bytes

theorem splitFirst_eq_none_iff (sep : Char) (l : List Char) :
    splitFirst sep l = none ↔ sep ∉ l := by
  induction l with
  | nil => simp [splitFirst]
  | cons c rest ih =>
      by_cases hc : c = sep
      · subst hc; simp [splitFirst]
      · simp only [splitFirst, if_neg hc]
        cases hrec : splitFirst sep rest with
        | none =>
            simp only [List.mem_cons]
            constructor
            · intro _ hmem
              rcases hmem with h | h
              · exact hc h.symm
              · exact (ih.mp hrec) h
            · intro _; trivial
        | some p =>
            simp only [List.mem_cons]
            constructor
            · intro h; cases h
            · intro hmem
              exfalso
              have : sep ∈ rest := by
                by_contra hnot
                rw [← ih] at hnot
                rw [hnot] at hrec
                cases hrec
              exact hmem (Or.inr this)

theorem splitFirst_eq_some (sep : Char) (l h t : List Char)
    (hs : splitFirst sep l = some (h, t)) : l = h ++ sep :: t ∧ sep ∉ h := by
  induction l generalizing h t with
  | nil => simp [splitFirst] at hs
  | cons c rest ih =>
      by_cases hc : c = sep
      · subst hc
        simp [splitFirst] at hs
        obtain ⟨h1, h2⟩ := hs
        subst h1; subst h2
        simp
      · simp only [splitFirst, if_neg hc] at hs
        cases hrec : splitFirst sep rest with
        | none => rw [hrec] at hs; cases hs
        | some p =>
            obtain ⟨ph, pt⟩ := p
            rw [hrec] at hs
            simp at hs
            obtain ⟨h1, h2⟩ := hs
            obtain ⟨hl, hnot⟩ := ih ph pt hrec
            subst h1; subst h2
            constructor
            · rw [hl]; rfl
            · intro hmem
              rcases List.mem_cons.mp hmem with hh | hh
              · exact hc hh.symm
              · exact hnot hh

/-! ## Paths and the imaging library -/

/-- Split a character list on a separator, keeping empty parts
(Python `str.split(sep)` semantics). -/
def splitChar (sep : Char) : List Char → List (List Char)
  | [] => [[]]
  | c :: rest =>
      if c = sep then [] :: splitChar sep rest
      else
        match splitChar sep rest with
        | [] => [[c]]
        | g :: gs => (c :: g) :: gs

/-- `pathlib.PurePosixPath(filename).name`: the last of the parsed
components, where parsing splits on `/` and drops empty and `"."`
components (`".."` components are kept); `""` when there is none. -/
def pathName (filename : String) : String :=
  let parts := (splitChar '/' filename.data).filter
    (fun p => !p.isEmpty && p ≠ ['.'])
  String.mk ((parts.getLast?).getD [])

/-- Python `dir / name` on component paths: joining with the empty
string leaves the path unchanged. -/
def pathJoin (dir : List String) (name : String) : List String :=
  if name = "" then dir else dir ++ [name]

/-- `str(Path)` for a component path. -/
def pathStr (p : List String) : String := String.intercalate "/" p

/-- `Path.name` of a component path built by this embedding. -/
def pathLastName (p : List String) : String := (p.getLast?).getD ""

/-- The external imaging library (PIL), a collaborator of the
repository: opening/verifying bytes as an image and writing an image
to a path may each fail with a detail message. -/
structure ImageLib where
  verifyImage : List Nat → Except String Unit
  openImage : List Nat → Except String Unit
  saveImage : List Nat → List String → Except String Unit

/-- `validate_image_content(content)` from `file_utilities.py`:
wrap a failed `Image.open(...).verify()` as
`ValueError("Invalid image content: <detail>")`. -/
def validate_image_content (img : ImageLib) (content : List Nat) : Except String Unit :=
  match img.verifyImage content with
  | .ok _ => .ok ()
  | .error e => .error s!"Invalid image content: {e}"

/-- `save_image_from_bytes(content, filename, upload_dir)` from
`file_utilities.py`: open the bytes as an image, strip the directory
components of `filename` with `Path(filename).name`, save to
`upload_dir / safe_filename`, and wrap any failure as
`IOError("Failed to save image \x27<filename>\x27: <detail>")`.
(The `upload_dir.mkdir(parents=True, exist_ok=True)` call is modelled
as always succeeding.) -/
def save_image_from_bytes (img : ImageLib) (content : List Nat)
    (filename : String) (upload_dir : List String) : Except String (List String) :=
  match img.openImage content with
  | .error e => .error ("Failed to save image \x27" ++ filename ++ "\x27: " ++ e)
  | .ok _ =>
      let safe_filename := pathName filename
      let file_path := pathJoin upload_dir safe_filename
      match img.saveImage content file_path with
      | .error e => .error ("Failed to save image \x27" ++ filename ++ "\x27: " ++ e)
      | .ok _ => .ok file_path

/-! ## Storage layout (`file_utilities.py`) -/

/-- Existence of a directory in the modelled filesystem. -/
def dirExists (fs : List (List String)) (d : List String) : Bool :=
  fs.any (fun x => decide (x = d))

/-- `create_user_directory(username)`: `mkdir(parents=True,
exist_ok=True)` on `<baseDir>/<username>` — idempotently add the user
directory to the filesystem. -/
def create_user_directory (fs : List (List String)) (baseDir : List String)
    (username : String) : List (List String) :=
  let user_folder_path := baseDir ++ [username]
  if dirExists fs user_folder_path then fs else fs ++ [user_folder_path]

/-- `get_user_directory(username)`: return `<baseDir>/<username>` when
that directory exists, else raise
`FileNotFoundError("User directory does not exist: <path>")`. -/
def get_user_directory (fs : List (List String)) (baseDir : List String)
    (username : String) : Except String (List String) :=
  let user_dir := baseDir ++ [username]
  if dirExists fs user_dir then .ok user_dir
  else .error s!"User directory does not exist: {pathStr user_dir}"

/-! ## Upload pipeline (`callbacks/app/select_images_callbacks.py`) -/

/-- The session and environment a callback runs against:
authentication state, current username, filesystem, configured base
folder, and the imaging library. -/
structure Env where
  is_authenticated : Bool
  current_username : String
  fs : List (List String)
  baseDir : List String
  img : ImageLib

/-- `get_current_username()` from `authentication.py`: raises
`PermissionError("No authenticated user found")` when the session is
not authenticated. -/
def get_current_username (env : Env) : Except String String :=
  if !env.is_authenticated then .error "No authenticated user found"
  else .ok env.current_username

/-- Python `str.lower()` (ASCII range, which covers the extension
comparison this code performs). -/
def strLower (s : String) : String := String.mk (s.data.map Char.toLower)

/-- Python `s.endswith(suffix)`. -/
def strEndsWith (s suffix : String) : Bool := suffix.data.isSuffixOf s.data

/-- `_validate_file_extension(filename)`: the lowercased filename must
end in one of `.tif .tiff .png .jpg .jpeg`, else
`ValueError("Unsupported file type: <filename>")`. -/
def validate_file_extension (filename : String) : Except String Unit :=
  let valid_extensions := [".tif", ".tiff", ".png", ".jpg", ".jpeg"]
  if valid_extensions.any (fun ext => strEndsWith (strLower filename) ext) then .ok ()
  else .error s!"Unsupported file type: {filename}"

/-- The per-file body of the loop in `_process_uploaded_images`:
extension check, base64 decode, content validation, save; the first
failure aborts this file only. Returns the saved `Path.name`. -/
def process_file (img : ImageLib) (image_dir : List String)
    (content : String) (filename : String) : Except String String :=
  match validate_file_extension filename with
  | .error e => .error e
  | .ok _ =>
      match decode_base64_image content with
      | .error e => .error e
      | .ok decoded_content =>
          match validate_image_content img decoded_content with
          | .error e => .error e
          | .ok _ =>
              match save_image_from_bytes img decoded_content filename image_dir with
              | .error e => .error e
              | .ok saved_path => .ok (pathLastName saved_path)

/-- One loop step of `_process_uploaded_images`: append either the
saved name or `"<filename>: <detail>"` to the accumulators. -/
def processStep (img : ImageLib) (image_dir : List String)
    (acc : List String × List String) (cf : String × String) :
    List String × List String :=
  match process_file img image_dir cf.1 cf.2 with
  | .ok name => (acc.1 ++ [name], acc.2)
  | .error e => (acc.1, acc.2 ++ [cf.2 ++ ": " ++ e])

/-- `_process_uploaded_images(contents, filenames)`: resolve the
current user (raising when absent or falsy), resolve the user
directory, then fold the per-file step over `zip(contents,
filenames)`. -/
def process_uploaded_images (env : Env) (contents filenames : List String) :
    Except String (List String × List String) :=
  match get_current_username env with
  | .error e => .error e
  | .ok username =>
      if username = "" then .error "No authenticated user found"
      else
        match get_user_directory env.fs env.baseDir username with
        | .error e => .error e
        | .ok user_dir =>
            let image_dir := user_dir ++ ["images"]
            .ok ((contents.zip filenames).foldl (processStep env.img image_dir) ([], []))

/-- The `UploadResponse` TypedDict. -/
structure UploadResponse where
  type : String
  message : String
  valid_files : List String
  errors : List String
deriving Repr, DecidableEq

/-- `_upload_error_response(message, errors)`. -/
def upload_error_response (message : String) (errors : List String) : UploadResponse :=
  { type := "error", message := message, valid_files := [], errors := errors }

/-- `_empty_upload_response()`. -/
def empty_upload_response : UploadResponse :=
  { type := "empty", message := "No files uploaded", valid_files := [], errors := [] }

/-- `_successful_upload_response(upload_type, valid_files, errors)`. -/
def successful_upload_response (upload_type : String)
    (valid_files errors : List String) : UploadResponse :=
  { type := upload_type, message := "Upload completed", valid_files := valid_files,
    errors := errors }

/-- `handle_image_upload(contents, filenames)`: reject unauthenticated
callers, treat falsy `contents`/`filenames` as "no files", otherwise
process the batch; an empty saved list is an error, a nonempty saved
list is `partial_success` when errors exist and `success` otherwise;
exceptions become the `"Upload failed"` error response. -/
def handle_image_upload (env : Env) (contents filenames : Option (List String)) :
    UploadResponse :=
  if !env.is_authenticated then
    upload_error_response "You must be logged in to upload images." []
  else if (contents.getD []).isEmpty || (filenames.getD []).isEmpty then
    empty_upload_response
  else
    match process_uploaded_images env (contents.getD []) (filenames.getD []) with
    | .error e => upload_error_response "Upload failed" [e]
    | .ok (saved_files, errors) =>
        if saved_files.isEmpty then
          upload_error_response "Upload failed"
            (if errors.isEmpty then ["Unknown error occurred"] else errors)
        else
          successful_upload_response
            (if !errors.isEmpty then "partial_success" else "success")
            saved_files errors

/-! ## Archive builder (`file_utilities.py`) -/

/-- `get_tiff_bytes(array)`: the external TIFF encoder with its
failure wrapped as
`IOError("Failed to convert image array to TIFF image bytes: <detail>")`. -/
def get_tiff_bytes {α : Type} (enc : α → Except String (List Nat)) (array : α) :
    Except String (List Nat) :=
  match enc array with
  | .ok b => .ok b
  | .error e => .error s!"Failed to convert image array to TIFF image bytes: {e}"

/-- The `for idx, image in enumerate(image_arrays)` loop of
`create_tif_zip_archive`, building zip entries `("<idx>.tif", bytes)`. -/
def create_zip_entries {α : Type} (enc : α → Except String (List Nat)) :
    Nat → List α → Except String (List (String × List Nat))
  | _, [] => .ok []
  | idx, a :: rest =>
      match get_tiff_bytes enc a with
      | .error e => .error e
      | .ok tiff_bytes =>
          match create_zip_entries enc (idx + 1) rest with
          | .error e => .error e
          | .ok entries => .ok ((s!"{idx}.tif", tiff_bytes) :: entries)

/-- `create_tif_zip_archive(image_arrays)`: write each encoded image
as entry `"<idx>.tif"` of an in-memory zip; any failure is wrapped as
`IOError("Failed to create TIFF zip archive: <detail>")`. -/
def create_tif_zip_archive {α : Type} (enc : α → Except String (List Nat))
    (image_arrays : List α) : Except String (List (String × List Nat)) :=
  match create_zip_entries enc 0 image_arrays with
  | .ok entries => .ok entries
  | .error e => .error s!"Failed to create TIFF zip archive: {e}"

/-! ## Registration (`auth/authentication.py`) -/

/-- `register_user(username, password)` over an explicit credential
store (the `User` table as a list of `(username, hashed_password)`
records, `generate_password_hash` as a parameter): an existing
username fails with "Username already exists", otherwise the new
record is added and registration succeeds. Returns the `(success,
message)` pair and the resulting store. -/
def register_user (hash : String → String) (store : List (String × String))
    (username password : String) : (Bool × String) × List (String × String) :=
  if store.any (fun r => decide (r.1 = username)) then
    ((false, "Username already exists"), store)
  else
    ((true, "Registration successful. You can now log in with your new account."),
      store ++ [(username, hash password)])

/-! ## Helper notions for the batch theorems -/

/-- The saved name a single `(content, filename)` pair contributes, if
its processing succeeds — a function of that pair alone. -/
def savedOf (img : ImageLib) (image_dir : List String) (cf : String × String) :
    Option String :=
  match process_file img image_dir cf.1 cf.2 with
  | .ok name => some name
  | .error _ => none

/-- The error entry a single `(content, filename)` pair contributes,
if its processing fails — a function of that pair alone. -/
def errorOf (img : ImageLib) (image_dir : List String) (cf : String × String) :
    Option String :=
  match process_file img image_dir cf.1 cf.2 with
  | .ok _ => none
  | .error e => some (cf.2 ++ ": " ++ e)

theorem foldl_processStep (img : ImageLib) (image_dir : List String)
    (pairs : List (String × String)) (acc : List String × List String) :
    pairs.foldl (processStep img image_dir) acc =
      (acc.1 ++ pairs.filterMap (savedOf img image_dir),
       acc.2 ++ pairs.filterMap (errorOf img image_dir)) := by
  induction pairs generalizing acc with
  | nil => simp
  | cons p ps ih =>
      rw [List.foldl_cons, ih]
      cases h : process_file img image_dir p.1 p.2 with
      | ok name =>
          simp [processStep, savedOf, errorOf, h, List.filterMap_cons]
      | error e =>
          simp [processStep, savedOf, errorOf, h, List.filterMap_cons]

theorem savedOf_errorOf_length (img : ImageLib) (image_dir : List String)
    (pairs : List (String × String)) :
    (pairs.filterMap (savedOf img image_dir)).length +
      (pairs.filterMap (errorOf img image_dir)).length = pairs.length := by
  induction pairs with
  | nil => simp
  | cons p ps ih =>
      cases h : process_file img image_dir p.1 p.2 with
      | ok name =>
          simp only [List.filterMap_cons, savedOf, errorOf, h, List.length_cons]
          omega
      | error e =>
          simp only [List.filterMap_cons, savedOf, errorOf, h, List.length_cons]
          omega

theorem mem_of_getLast?_eq {α : Type} {l : List α} {a : α}
    (h : l.getLast? = some a) : a ∈ l := by
  have hx : a ∈ l.getLast? := Option.mem_def.mpr h
  obtain ⟨hne, hEq⟩ := List.mem_getLast?_eq_getLast hx
  exact hEq ▸ List.getLast_mem hne

theorem splitChar_not_mem (sep : Char) (l : List Char) :
    ∀ part ∈ splitChar sep l, sep ∉ part := by
  induction l with
  | nil =>
      intro part hp
      simp only [splitChar, List.mem_singleton] at hp
      simp [hp]
  | cons c rest ih =>
      intro part hp
      by_cases hc : c = sep
      · subst hc
        rw [splitChar, if_pos rfl] at hp
        rcases List.mem_cons.mp hp with h | h
        · simp [h]
        · exact ih part h
      · rw [splitChar, if_neg hc] at hp
        cases hrec : splitChar sep rest with
        | nil =>
            rw [hrec] at hp
            simp only [List.mem_singleton] at hp
            subst hp
            intro hmem
            exact hc (List.mem_singleton.mp hmem).symm
        | cons g gs =>
            rw [hrec] at hp
            rcases List.mem_cons.mp hp with h | h
            · subst h
              intro hmem
              rcases List.mem_cons.mp hmem with h | h
              · exact hc h.symm
              · exact ih g (hrec ▸ List.mem_cons_self g gs) h
            · exact ih part (hrec ▸ List.mem_cons_of_mem g h)

theorem no_sep_getLast (sep : Char) (parts : List (List Char))
    (hall : ∀ p ∈ parts, sep ∉ p) : sep ∉ (parts.getLast?).getD [] := by
  cases h : parts.getLast? with
  | none => simp
  | some p => simpa using hall p (mem_of_getLast?_eq h)

/-- `Path(filename).name` never contains a path separator. -/
theorem pathName_no_separator (filename : String) :
    '/' ∉ (pathName filename).data := by
  unfold pathName
  exact no_sep_getLast '/' _
    (fun p hp => splitChar_not_mem '/' filename.data p (List.mem_of_mem_filter hp))

/-- `splitFirst` applied to a list with an explicit first separator. -/
theorem splitFirst_append (sep : Char) (h t : List Char) (hn : sep ∉ h) :
    splitFirst sep (h ++ sep :: t) = some (h, t) := by
  induction h with
  | nil => simp [splitFirst]
  | cons c cs ih =>
      have hc : ¬ c = sep := fun hEq => hn (hEq ▸ List.mem_cons_self c cs)
      have hn' : sep ∉ cs := fun hmem => hn (List.mem_cons_of_mem c hmem)
      rw [List.cons_append, splitFirst, if_neg hc, ih hn']

theorem zip_take_min {α β : Type} : ∀ (cs : List α) (fs : List β),
    (cs.take (min cs.length fs.length)).zip (fs.take (min cs.length fs.length)) =
      cs.zip fs
  | [], fs => by simp
  | c :: cs, [] => by simp
  | c :: cs, f :: fs => by
      simp only [List.length_cons, Nat.succ_min_succ, List.take_succ_cons,
        List.zip_cons_cons]
      rw [zip_take_min cs fs]

/-- `_process_uploaded_images` reads its two list arguments only
through `zip(contents, filenames)`. -/
theorem process_congr_zip (env : Env) {cs fs cs' fs' : List String}
    (hz : cs.zip fs = cs'.zip fs') :
    process_uploaded_images env cs fs = process_uploaded_images env cs' fs' := by
  unfold process_uploaded_images
  rw [hz]

/-! ## Concrete instances used by witnesses -/

/-- An imaging library for which every byte string is a valid image
and every save succeeds. -/
def trivialImageLib : ImageLib :=
  { verifyImage := fun _ => .ok (),
    openImage := fun _ => .ok (),
    saveImage := fun _ _ => .ok () }

/-- A session of user `alice`, authenticated, whose user directory
exists under base folder `base`. -/
def demoEnv : Env :=
  { is_authenticated := true, current_username := "alice",
    fs := [["base", "alice"]], baseDir := ["base"], img := trivialImageLib }

/-! ## Claim theorems -/

/-- **C6.** Per-file processing within one batch is independent and
order-preserving: the batch result is exactly the per-file outcome
function mapped over `zip(contents, filenames)` — each file's saved
name or error entry is a function of that file's pair alone, so one
file's failure never prevents another from being validated and saved,
and `saved_files` and `errors` list their files in input order. -/
theorem batch_files_independent_ordered (env : Env) (cs fs : List String)
    (u : String) (d : List String)
    (hu : get_current_username env = .ok u) (hne : u ≠ "")
    (hd : get_user_directory env.fs env.baseDir u = .ok d) :
    process_uploaded_images env cs fs =
      .ok ((cs.zip fs).filterMap (savedOf env.img (d ++ ["images"])),
           (cs.zip fs).filterMap (errorOf env.img (d ++ ["images"]))) := by
  unfold process_uploaded_images
  rw [hu]
  simp only [if_neg hne]
  rw [hd]
  simp [foldl_processStep]

/-- Witness for C6: a two-file batch (one decodable, one not) for
`demoEnv` yields exactly the two per-file outcomes, in order. -/
theorem batch_files_independent_ordered_witness :
    process_uploaded_images demoEnv ["data:,AA==", "x"] ["a.png", "b.png"] =
      .ok (([("data:,AA==", "a.png"), ("x", "b.png")]).filterMap
             (savedOf demoEnv.img (["base", "alice"] ++ ["images"])),
           ([("data:,AA==", "a.png"), ("x", "b.png")]).filterMap
             (errorOf demoEnv.img (["base", "alice"] ++ ["images"]))) :=
  batch_files_independent_ordered demoEnv ["data:,AA==", "x"] ["a.png", "b.png"]
    "alice" ["base", "alice"] rfl (by decide) rfl

/-- **C3.** For every file saved into the user's images directory
`<baseDir>/<username>/images`, the persisted path is that directory
joined with `Path(filename).name`: the stored filename is the basename
of the supplied filename, it never contains a path separator, and the
saved file lies inside the images directory (the path extends it by at
most one separator-free component). -/
theorem saved_file_is_sanitized_basename (img : ImageLib) (content : List Nat)
    (filename : String) (baseDir : List String) (username : String)
    (p : List String)
    (h : save_image_from_bytes img content filename
          (baseDir ++ [username, "images"]) = .ok p) :
    '/' ∉ (pathName filename).data ∧
    p = pathJoin (baseDir ++ [username, "images"]) (pathName filename) ∧
    ∃ t, p = (baseDir ++ [username, "images"]) ++ t ∧ t.length ≤ 1 := by
  refine ⟨pathName_no_separator filename, ?_⟩
  unfold save_image_from_bytes at h
  cases ho : img.openImage content with
  | error e => rw [ho] at h; cases h
  | ok _ =>
      rw [ho] at h
      simp only at h
      cases hs : img.saveImage content
          (pathJoin (baseDir ++ [username, "images"]) (pathName filename)) with
      | error e => rw [hs] at h; cases h
      | ok _ =>
          rw [hs] at h
          cases h
          refine ⟨rfl, ?_⟩
          unfold pathJoin
          by_cases hn : pathName filename = ""
          · exact ⟨[], by simp [hn]⟩
          · exact ⟨[pathName filename], by simp [hn]⟩

/-- Witness for C3: saving under filename `dir/sub/cat.png` persists
as `cat.png` inside `base/alice/images`. -/
theorem saved_file_is_sanitized_basename_witness :
    '/' ∉ (pathName "dir/sub/cat.png").data ∧
    ["base", "alice", "images", "cat.png"] =
      pathJoin (["base"] ++ ["alice", "images"]) (pathName "dir/sub/cat.png") ∧
    ∃ t, ["base", "alice", "images", "cat.png"] =
      (["base"] ++ ["alice", "images"]) ++ t ∧ t.length ≤ 1 :=
  saved_file_is_sanitized_basename trivialImageLib [0] "dir/sub/cat.png"
    ["base"] "alice" ["base", "alice", "images", "cat.png"] rfl

/-- **C5.** Decoding an encoded payload fails when the string has no
comma, and when the body after the first comma base64-decodes to empty
bytes, each with the exact wrapped message; on success the returned
bytes are the base64 decoding of the part after the first comma (and
are nonempty); and when a file's decode fails after passing the
extension check, its recorded batch error entry is
`"<filename>: Failed to decode base64 image: <detail>"`. -/
theorem decode_failure_modes (c f : String) (img : ImageLib) (image_dir : List String) :
    (',' ∉ c.data →
      decode_base64_image c =
        .error "Failed to decode base64 image: Input string does not contain a comma to split header and data.") ∧
    (∀ hdr body, c.data = hdr ++ ',' :: body → ',' ∉ hdr →
      b64decode (String.mk body) = .ok [] →
      decode_base64_image c =
        .error "Failed to decode base64 image: Decoded image content is empty.") ∧
    (∀ b, decode_base64_image c = .ok b →
      b ≠ [] ∧ ∃ hdr body, c.data = hdr ++ ',' :: body ∧ ',' ∉ hdr ∧
        b64decode (String.mk body) = .ok b) ∧
    (∀ e, validate_file_extension f = .ok () → decode_base64_image c = .error e →
      errorOf img image_dir (c, f) = some (f ++ ": " ++ e)) := by
  refine ⟨?_, ?_, ?_, ?_⟩
  · intro hnc
    unfold decode_base64_image
    rw [(splitFirst_eq_none_iff ',' c.data).mpr hnc]
  · intro hdr body hsplit hnh hdec
    unfold decode_base64_image
    rw [hsplit, splitFirst_append ',' hdr body hnh]
    dsimp only
    rw [hdec]
    simp
  · intro b hok
    unfold decode_base64_image at hok
    cases hsp : splitFirst ',' c.data with
    | none => rw [hsp] at hok; cases hok
    | some p =>
        obtain ⟨hdr, body⟩ := p
        rw [hsp] at hok
        dsimp only at hok
        cases hdec : b64decode (String.mk body) with
        | error e => rw [hdec] at hok; cases hok
        | ok bs =>
            rw [hdec] at hok
            dsimp only at hok
            by_cases hbs : bs.isEmpty
            · rw [if_pos hbs] at hok; cases hok
            · rw [if_neg hbs] at hok
              cases hok
              obtain ⟨hrec, hnh⟩ := splitFirst_eq_some ',' c.data hdr body hsp
              exact ⟨fun hnil => hbs (hnil ▸ rfl), hdr, body, hrec, hnh, hdec⟩
  · intro e hext hdec
    unfold errorOf process_file
    rw [hext, hdec]

/-- Witness for C5: a comma-less payload, a payload whose body decodes
to empty bytes, and the recorded per-file error entry for the former
under a valid extension. -/
theorem decode_failure_modes_witness :
    decode_base64_image "nocomma" =
      .error "Failed to decode base64 image: Input string does not contain a comma to split header and data." ∧
    decode_base64_image "data:," =
      .error "Failed to decode base64 image: Decoded image content is empty." ∧
    errorOf trivialImageLib ["base", "alice", "images"] ("nocomma", "a.png") =
      some "a.png: Failed to decode base64 image: Input string does not contain a comma to split header and data." := by
  refine ⟨?_, ?_, ?_⟩
  · exact (decode_failure_modes "nocomma" "a.png" trivialImageLib
      ["base", "alice", "images"]).1 (by decide)
  · exact (decode_failure_modes "data:," "a.png" trivialImageLib
      ["base", "alice", "images"]).2.1 "data:".data [] (by decide) (by decide) rfl
  · exact (decode_failure_modes "nocomma" "a.png" trivialImageLib
      ["base", "alice", "images"]).2.2.2 _ rfl
      ((decode_failure_modes "nocomma" "a.png" trivialImageLib
        ["base", "alice", "images"]).1 (by decide))

/-- **C2.** For every batch submitted by an authenticated identity the
result kind satisfies the invariant: `success` iff no errors and some
saved files; `partial_success` iff both saved files and errors;
`error` iff no saved files and a nonempty input; `empty` iff no input
files (the files of a batch being the pairs `zip(contents,
filenames)`). -/
theorem upload_batch_kind_invariant (env : Env) (cs fs : List String)
    (r : UploadResponse) (hauth : env.is_authenticated = true)
    (hr : r = handle_image_upload env (some cs) (some fs)) :
    (r.type = "success" ↔ (r.errors = [] ∧ r.valid_files ≠ [])) ∧
    (r.type = "partial_success" ↔ (r.valid_files ≠ [] ∧ r.errors ≠ [])) ∧
    (r.type = "error" ↔ (r.valid_files = [] ∧ cs.zip fs ≠ [])) ∧
    (r.type = "empty" ↔ cs.zip fs = []) := by
  subst hr
  unfold handle_image_upload
  rw [hauth]
  cases cs with
  | nil => simp [empty_upload_response]
  | cons c cs' =>
      cases fs with
      | nil => simp [empty_upload_response]
      | cons f fs' =>
          simp only [Option.getD_some, List.isEmpty_cons, Bool.or_self,
            Bool.not_true, Bool.false_eq_true, if_false, List.zip_cons_cons]
          cases hp : process_uploaded_images env (c :: cs') (f :: fs') with
          | error e => simp [upload_error_response]
          | ok pr =>
              obtain ⟨saved_files, errors⟩ := pr
              dsimp only
              cases saved_files with
              | nil =>
                  cases errors with
                  | nil => simp [upload_error_response]
                  | cons e es => simp [upload_error_response]
              | cons s ss =>
                  cases errors with
                  | nil => simp [successful_upload_response]
                  | cons e es => simp [successful_upload_response]

/-- Witness for C2: a successful one-file batch for `demoEnv`
satisfies the four kind equivalences. -/
theorem upload_batch_kind_invariant_witness :
    ((UploadResponse.mk "success" "Upload completed" ["a.png"] []).type = "success" ↔
      ((UploadResponse.mk "success" "Upload completed" ["a.png"] []).errors = [] ∧
       (UploadResponse.mk "success" "Upload completed" ["a.png"] []).valid_files ≠ [])) ∧
    ((UploadResponse.mk "success" "Upload completed" ["a.png"] []).type = "partial_success" ↔
      ((UploadResponse.mk "success" "Upload completed" ["a.png"] []).valid_files ≠ [] ∧
       (UploadResponse.mk "success" "Upload completed" ["a.png"] []).errors ≠ [])) ∧
    ((UploadResponse.mk "success" "Upload completed" ["a.png"] []).type = "error" ↔
      ((UploadResponse.mk "success" "Upload completed" ["a.png"] []).valid_files = [] ∧
       ["data:,AA=="].zip ["a.png"] ≠ [])) ∧
    ((UploadResponse.mk "success" "Upload completed" ["a.png"] []).type = "empty" ↔
      ["data:,AA=="].zip ["a.png"] = []) :=
  upload_batch_kind_invariant demoEnv ["data:,AA=="] ["a.png"]
    (UploadResponse.mk "success" "Upload completed" ["a.png"] []) rfl (by rfl)

/-- **C10.** Every upload call from an unauthenticated session — the
submitted lists may be absent, empty, or anything else — returns the
error response `"You must be logged in to upload images."` with empty
`valid_files` and `errors`; the authentication check precedes the
no-files check, so an unauthenticated empty submission is never the
empty-kind result. -/
theorem unauthenticated_upload_always_error (env : Env)
    (contents filenames : Option (List String))
    (h : env.is_authenticated = false) :
    handle_image_upload env contents filenames =
      { type := "error", message := "You must be logged in to upload images.",
        valid_files := [], errors := [] } ∧
    (handle_image_upload env contents filenames).type ≠ "empty" := by
  have hmain : handle_image_upload env contents filenames =
      { type := "error", message := "You must be logged in to upload images.",
        valid_files := [], errors := [] } := by
    unfold handle_image_upload
    rw [h]
    rfl
  refine ⟨hmain, ?_⟩
  rw [hmain]
  simp

/-- Witness for C10: an unauthenticated session submitting an
explicitly empty contents list and no filenames. -/
theorem unauthenticated_upload_always_error_witness :
    handle_image_upload
        { is_authenticated := false, current_username := "",
          fs := [], baseDir := ["base"], img := trivialImageLib }
        (some []) none =
      { type := "error", message := "You must be logged in to upload images.",
        valid_files := [], errors := [] } ∧
    (handle_image_upload
        { is_authenticated := false, current_username := "",
          fs := [], baseDir := ["base"], img := trivialImageLib }
        (some []) none).type ≠ "empty" :=
  unauthenticated_upload_always_error
    { is_authenticated := false, current_username := "",
      fs := [], baseDir := ["base"], img := trivialImageLib }
    (some []) none rfl

/-- **C4, counterexample.** The claim says unequal-length input lists
are treated as "no files" (empty-kind result with empty lists). At the
concrete unequal-length input below (two contents, one filename) the
authenticated batch instead produces the error-kind result with a
nonempty error list: `zip` truncates, it does not empty the batch. -/
theorem unequal_lists_not_treated_as_no_files :
    (["data:,AA==", "data:,AA=="] : List String).length ≠
      (["f.xyz"] : List String).length ∧
    handle_image_upload demoEnv (some ["data:,AA==", "data:,AA=="]) (some ["f.xyz"]) =
      { type := "error", message := "Upload failed", valid_files := [],
        errors := ["f.xyz: Unsupported file type: f.xyz"] } ∧
    (handle_image_upload demoEnv (some ["data:,AA==", "data:,AA=="])
        (some ["f.xyz"])).type ≠ "empty" := by
  refine ⟨by decide, by rfl, ?_⟩
  have h : handle_image_upload demoEnv (some ["data:,AA==", "data:,AA=="])
      (some ["f.xyz"]) =
      { type := "error", message := "Upload failed", valid_files := [],
        errors := ["f.xyz: Unsupported file type: f.xyz"] } := by rfl
  rw [h]
  simp

/-- **C4, amended.** At the upload boundary an empty (or absent)
contents or filenames list is treated as "no files" — the same result
as submitting nothing at all; an unequal-length pair of nonempty lists
is instead truncated: the batch behaves exactly as the two lists cut
to their common length (pairwise `zip`). -/
theorem upload_boundary_empty_or_truncated (env : Env) (cs fs : List String) :
    ((cs = [] ∨ fs = []) →
      handle_image_upload env (some cs) (some fs) =
        handle_image_upload env none none) ∧
    handle_image_upload env (some cs) (some fs) =
      handle_image_upload env (some (cs.take (min cs.length fs.length)))
        (some (fs.take (min cs.length fs.length))) := by
  constructor
  · rintro (h | h) <;> subst h <;>
      [skip; skip] <;>
    · unfold handle_image_upload
      cases hA : env.is_authenticated <;> simp [hA]
  · cases cs with
    | nil =>
        unfold handle_image_upload
        cases hA : env.is_authenticated <;> simp [hA]
    | cons c cs' =>
        cases fs with
        | nil =>
            unfold handle_image_upload
            cases hA : env.is_authenticated <;> simp [hA]
        | cons f fs' =>
            have hz : ((c :: cs').take (min (c :: cs').length (f :: fs').length)).zip
                ((f :: fs').take (min (c :: cs').length (f :: fs').length)) =
                (c :: cs').zip (f :: fs') := zip_take_min (c :: cs') (f :: fs')
            simp only [List.length_cons, Nat.succ_min_succ, List.take_succ_cons] at hz ⊢
            unfold handle_image_upload
            simp only [Option.getD_some]
            rw [process_congr_zip env hz.symm]
            simp only [List.isEmpty_cons]

/-- Witness for C4 (amended): an empty contents list with one filename
behaves as "nothing submitted", and a 2-vs-1 submission equals its
truncation to one pair. -/
theorem upload_boundary_empty_or_truncated_witness :
    handle_image_upload demoEnv (some []) (some ["a.png"]) =
      handle_image_upload demoEnv none none ∧
    handle_image_upload demoEnv (some ["data:,AA==", "data:,AA=="]) (some ["f.xyz"]) =
      handle_image_upload demoEnv
        (some (["data:,AA==", "data:,AA=="].take
          (min ["data:,AA==", "data:,AA=="].length ["f.xyz"].length)))
        (some (["f.xyz"].take
          (min ["data:,AA==", "data:,AA=="].length ["f.xyz"].length))) :=
  ⟨(upload_boundary_empty_or_truncated demoEnv [] ["a.png"]).1 (Or.inl rfl),
   (upload_boundary_empty_or_truncated demoEnv ["data:,AA==", "data:,AA=="]
      ["f.xyz"]).2⟩

/-- **C7.** For a two-element input `[A, B]` the archive holds exactly
the two entries `"0.tif"` and `"1.tif"`, in input order from index 0,
whose contents are byte-identical to the (losslessly) encoded images
`A` and `B`; and the empty input yields a valid archive with zero
entries, not an error. -/
theorem archive_two_entries {α : Type} (enc : α → Except String (List Nat))
    (A B : α) (bA bB : List Nat) (hA : enc A = .ok bA) (hB : enc B = .ok bB) :
    create_tif_zip_archive enc [A, B] = .ok [("0.tif", bA), ("1.tif", bB)] ∧
    create_tif_zip_archive enc ([] : List α) = .ok [] := by
  constructor
  · unfold create_tif_zip_archive create_zip_entries get_tiff_bytes
    rw [hA]
    dsimp only
    unfold create_zip_entries get_tiff_bytes
    rw [hB]
    rfl
  · rfl

/-- Witness for C7 with the identity encoder on raw byte buffers:
entries `"0.tif"`/`"1.tif"` are byte-identical to the inputs. -/
theorem archive_two_entries_witness :
    create_tif_zip_archive (fun (b : List Nat) => Except.ok b) [[1], [2]] =
      .ok [("0.tif", [1]), ("1.tif", [2])] ∧
    create_tif_zip_archive (fun (b : List Nat) => Except.ok b) [] = .ok [] :=
  archive_two_entries (fun (b : List Nat) => Except.ok b) [1] [2] [1] [2] rfl rfl

/-- **C8, counterexample.** The claim says the storage-layout resolve
operation creates the top-level user directory on first need rather
than failing when it does not exist. On an empty filesystem,
`get_user_directory("alice")` raises
`FileNotFoundError("User directory does not exist: base/alice")`
instead of returning (and creating) the directory. -/
theorem resolve_absent_directory_fails :
    get_user_directory ([] : List (List String)) ["base"] "alice" =
      .error "User directory does not exist: base/alice" ∧
    get_user_directory ([] : List (List String)) ["base"] "alice" ≠
      .ok ["base", "alice"] := by
  refine ⟨by rfl, ?_⟩
  intro h
  cases h

/-- **C8, amended.** `get_user_directory(username)` returns
`<baseDir>/<username>` when that directory exists and raises
`FileNotFoundError` when it is absent; directory creation is the
separate `create_user_directory` operation (invoked on login), which
creates the directory idempotently, after which resolution succeeds. -/
theorem resolve_returns_or_raises (fs : List (List String))
    (baseDir : List String) (u : String) :
    (dirExists fs (baseDir ++ [u]) = true →
      get_user_directory fs baseDir u = .ok (baseDir ++ [u])) ∧
    (dirExists fs (baseDir ++ [u]) = false →
      get_user_directory fs baseDir u =
        .error s!"User directory does not exist: {pathStr (baseDir ++ [u])}") ∧
    get_user_directory (create_user_directory fs baseDir u) baseDir u =
      .ok (baseDir ++ [u]) ∧
    create_user_directory (create_user_directory fs baseDir u) baseDir u =
      create_user_directory fs baseDir u := by
  have hAdd : dirExists (fs ++ [baseDir ++ [u]]) (baseDir ++ [u]) = true := by
    simp [dirExists, List.any_append]
  refine ⟨?_, ?_, ?_, ?_⟩
  · intro h
    simp [get_user_directory, h]
  · intro h
    simp [get_user_directory, h]
  · unfold create_user_directory
    cases h : dirExists fs (baseDir ++ [u]) with
    | true => simp [get_user_directory, h]
    | false => simp [get_user_directory, h, hAdd]
  · unfold create_user_directory
    cases h : dirExists fs (baseDir ++ [u]) with
    | true => simp [h]
    | false => simp [h, hAdd]

/-- Witness for C8 (amended): on the empty filesystem resolution of
`alice` fails, and after `create_user_directory` it returns
`base/alice`. -/
theorem resolve_returns_or_raises_witness :
    get_user_directory ([] : List (List String)) ["base"] "alice" =
      .error "User directory does not exist: base/alice" ∧
    get_user_directory (create_user_directory [] ["base"] "alice") ["base"] "alice" =
      .ok (["base"] ++ ["alice"]) :=
  ⟨(resolve_returns_or_raises [] ["base"] "alice").2.1 rfl,
   (resolve_returns_or_raises [] ["base"] "alice").2.2.1⟩

/-- **C9.** Registering a username absent from the credential store
succeeds with the exact message
`"Registration successful. You can now log in with your new account."`
and appends the new identity; an immediately following registration of
the same username, with any password, fails with the exact message
`"Username already exists"` and leaves the store unchanged. -/
theorem register_fresh_then_duplicate (hash : String → String)
    (store : List (String × String)) (u p1 : String)
    (h : store.any (fun r => decide (r.1 = u)) = false) :
    register_user hash store u p1 =
      ((true, "Registration successful. You can now log in with your new account."),
        store ++ [(u, hash p1)]) ∧
    ∀ p2, register_user hash (store ++ [(u, hash p1)]) u p2 =
      ((false, "Username already exists"), store ++ [(u, hash p1)]) := by
  constructor
  · unfold register_user
    rw [h]
    rfl
  · intro p2
    unfold register_user
    have hdup : (store ++ [(u, hash p1)]).any (fun r => decide (r.1 = u)) = true := by
      simp [List.any_append]
    rw [hdup]
    rfl

/-- Witness for C9: registering `alice` on a fresh store, then
registering `alice` again with another password. -/
theorem register_fresh_then_duplicate_witness :
    register_user id [] "alice" "pw123" =
      ((true, "Registration successful. You can now log in with your new account."),
        [] ++ [("alice", id "pw123")]) ∧
    register_user id ([] ++ [("alice", id "pw123")]) "alice" "other" =
      ((false, "Username already exists"), [] ++ [("alice", id "pw123")]) :=
  ⟨(register_fresh_then_duplicate id [] "alice" "pw123" rfl).1,
   (register_fresh_then_duplicate id [] "alice" "pw123" rfl).2 "other"⟩

end Templates
